import Mathlib

/-!
Verification of the form-automate bulk email delivery engine and its
abuse-control/verification shell, as a shallow embedding of the Python
sources:

  * `src/routes/campaigns.py`   — campaign creation, pause/resume, and the
    delivery worker `send_campaign_emails`;
  * `src/services/rate_limit_service.py` — fixed-window rate limiter and the
    suspicious-activity detector;
  * `src/services/verification_service.py` — email verification engine;
  * `src/services/email_service.py` — provider selection policy.

External collaborators (template renderer, outbound providers, the ephemeral
store, DNS) are modelled as explicit parameters carrying their observable
outcomes; Python dicts become structures; Python floats (`delivery_rate`)
are modelled exactly over `ℚ`.
-/

namespace FormAutomate

/-- Enum `CampaignStatus` from `src/models/email.py`. -/
inductive CampaignStatus where
  | draft | sending | paused | completed | failed | cancelled
deriving DecidableEq, Repr

/-- Enum `EmailStatus` from `src/models/email.py`. -/
inductive EmailStatus where
  | pending | sent | delivered | bounced | complained | failed
deriving DecidableEq, Repr

/-- The `Campaign` row from `src/models/email.py` (the fields the delivery
engine reads or writes).  `delivery_rate` is a Python float, modelled
exactly as a rational. -/
structure Campaign where
  status : CampaignStatus
  total_emails : Nat
  sent_count : Nat
  error_count : Nat
  delivery_rate : ℚ
deriving DecidableEq, Repr

/-- An `EmailLog` row (`src/models/email.py`), as written by
`log_email_success` / `log_email_error` in `src/routes/campaigns.py`. -/
structure EmailLog where
  to_email : String
  status : EmailStatus
  error_message : Option String
  external_id : Option String
deriving DecidableEq, Repr

/-- Observable outcome of the per-recipient collaborator calls inside the
worker loop of `send_campaign_emails` (`src/routes/campaigns.py:468-499`):
the template render either fails (`email_result['success']` false, with
`email_result['error']`), or the send returns success with a message id,
or the send returns an error result, or the whole per-row `try` block
raises an exception. -/
inductive RowOutcome where
  | renderFail (err : String)
  | sendSuccess (messageId : String)
  | sendError (msg : String)
  | sendRaise (msg : String)
deriving DecidableEq, Repr

/-- One recipient row `{data: map, valid: bool}` from the upload
(`upload_data['rows']`), together with the collaborator outcome its
processing would produce. -/
structure Row where
  data : List (String × String)
  valid : Bool
  outcome : RowOutcome
deriving DecidableEq, Repr

/-- Models `data.get('email')` followed by the Python truthiness test
`if not email` (`src/routes/campaigns.py:463-466`): a missing key or an
empty string both count as "no email". -/
def rowEmail (r : Row) : Option String :=
  match r.data.lookup "email" with
  | none => none
  | some s => if s = "" then none else some s

/-- Recompute `campaign.delivery_rate` exactly as
`src/routes/campaigns.py:502`:
`(sent_count / total_emails * 100) if total_emails > 0 else 0`. -/
def recomputeRate (c : Campaign) : Campaign :=
  { c with delivery_rate :=
      if 0 < c.total_emails then (c.sent_count : ℚ) / (c.total_emails : ℚ) * 100 else 0 }

/-- The body of one iteration of the worker loop in `send_campaign_emails`
(`src/routes/campaigns.py:462-503`), given that the per-iteration status
check did not break.  Faithful points:

  * a row without an `email` value is skipped by `continue` — no log row,
    no counter change (lines 463-466);
  * a template-render failure writes a FAILED log via `log_email_error`
    and `continue`s — `error_count` is **not** incremented and
    `delivery_rate` is not recomputed (lines 476-478);
  * a send success writes a SENT log and increments `sent_count`; a send
    error result or a raised exception writes a FAILED log and increments
    `error_count`; in these three cases `delivery_rate` is recomputed
    (lines 489-503). -/
def processRow (c : Campaign) (logs : List EmailLog) (r : Row) :
    Campaign × List EmailLog :=
  match rowEmail r with
  | none => (c, logs)
  | some email =>
    match r.outcome with
    | .renderFail err =>
        (c, logs ++ [⟨email, .failed, some err, none⟩])
    | .sendSuccess messageId =>
        (recomputeRate { c with sent_count := c.sent_count + 1 },
         logs ++ [⟨email, .sent, none, some messageId⟩])
    | .sendError msg =>
        (recomputeRate { c with error_count := c.error_count + 1 },
         logs ++ [⟨email, .failed, some msg, none⟩])
    | .sendRaise msg =>
        (recomputeRate { c with error_count := c.error_count + 1 },
         logs ++ [⟨email, .failed, some msg, none⟩])

/-- The per-iteration stop test of `src/routes/campaigns.py:458`:
`campaign.status in [PAUSED, CANCELLED, FAILED]`. -/
def stopStatus (s : CampaignStatus) : Bool :=
  s = .paused ∨ s = .cancelled ∨ s = .failed

/-- The `for row in valid_rows` loop of `send_campaign_emails`
(`src/routes/campaigns.py:455-503`) run in isolation (no interleaved
pause/resume, so the status re-read at each iteration sees the status the
worker itself carries).  `break` on a stop status leaves the remaining
rows unprocessed. -/
def workerLoop (c : Campaign) (logs : List EmailLog) :
    List Row → Campaign × List EmailLog
  | [] => (c, logs)
  | r :: rest =>
    if stopStatus c.status then (c, logs)
    else
      let p := processRow c logs r
      workerLoop p.1 p.2 rest

/-- Function `send_campaign_emails` (`src/routes/campaigns.py:437-509`) as a single
uninterrupted run: filter `valid` rows, run the loop, and then — whether
the loop finished naturally or via `break` — unconditionally set the
status to COMPLETED (lines 505-507 execute after the loop in both
cases). -/
def send_campaign_emails (c : Campaign) (logs : List EmailLog)
    (rows : List Row) : Campaign × List EmailLog :=
  let validRows := rows.filter (fun r => r.valid)
  let p := workerLoop c logs validRows
  ({ p.1 with status := .completed }, p.2)

/-- Campaign construction in `create_campaign`
(`src/routes/campaigns.py:71-93`): `total_emails` counts the rows with
`row.get('valid', True)`; status is SENDING when there is at least one
valid row, DRAFT otherwise; counters start at 0 and `delivery_rate` at
0.0. -/
def create_campaign (rows : List Row) : Campaign :=
  let total := (rows.filter (fun r => r.valid)).length
  { status := if 0 < total then .sending else .draft
    total_emails := total
    sent_count := 0
    error_count := 0
    delivery_rate := 0 }

/-! ### Interleaving semantics

The worker runs as a detached background task; the pause/resume endpoints
run concurrently and the worker re-reads the campaign status once per
iteration.  `Sys` is the shared persistent state plus the multiset of
active workers (each holding its remaining, already-`valid`-filtered
rows); one `Step` is one commit-granularity action. -/

structure Sys where
  campaign : Campaign
  logs : List EmailLog
  rows : List Row
  workers : List (List Row)
deriving DecidableEq, Repr

/-- System state right after `create_campaign` plus the
`background_tasks.add_task(send_campaign_emails, ...)` it performs when
`total_emails > 0` (`src/routes/campaigns.py:102-108`). -/
def initSys (rows : List Row) : Sys :=
  let validRows := rows.filter (fun r => r.valid)
  { campaign := create_campaign rows
    logs := []
    rows := rows
    workers := if 0 < validRows.length then [validRows] else [] }

/-- Steps that do not resume a campaign: one worker iteration
(status re-read passes: process the head row and commit), a worker
observing a stop status (`break`, after which lines 505-507 still set
COMPLETED), a worker finishing its rows naturally (set COMPLETED), and
the pause endpoint (`src/routes/campaigns.py:262-269`, SENDING only). -/
inductive Step0 : Sys → Sys → Prop where
  | process (s : Sys) (i : Nat) (r : Row) (rest : List Row)
      (hw : s.workers.get? i = some (r :: rest))
      (hs : stopStatus s.campaign.status = false) :
      Step0 s { s with
        campaign := (processRow s.campaign s.logs r).1
        logs := (processRow s.campaign s.logs r).2
        workers := s.workers.set i rest }
  | stopComplete (s : Sys) (i : Nat) (r : Row) (rest : List Row)
      (hw : s.workers.get? i = some (r :: rest))
      (hs : stopStatus s.campaign.status = true) :
      Step0 s { s with
        campaign := { s.campaign with status := .completed }
        workers := s.workers.eraseIdx i }
  | finishComplete (s : Sys) (i : Nat)
      (hw : s.workers.get? i = some []) :
      Step0 s { s with
        campaign := { s.campaign with status := .completed }
        workers := s.workers.eraseIdx i }
  | pause (s : Sys)
      (hs : s.campaign.status = .sending) :
      Step0 s { s with campaign := { s.campaign with status := .paused } }

/-- Full step relation: the non-resume steps, plus the resume endpoint
(`src/routes/campaigns.py:301-325`): PAUSED only; sets SENDING and
launches a fresh worker over **all** valid rows of the upload. -/
inductive Step : Sys → Sys → Prop where
  | base {s t : Sys} (h : Step0 s t) : Step s t
  | resume (s : Sys)
      (hs : s.campaign.status = .paused) :
      Step s { s with
        campaign := { s.campaign with status := .sending }
        workers := s.workers ++ [s.rows.filter (fun r => r.valid)] }

/-! ### Rate limiter (`src/services/rate_limit_service.py`)

One call to `is_rate_limited` touches exactly one store key
(`rate_limit:{limit_type}:{key}[:{identifier}]`), so the store is modelled
as the state of that key: `none` when absent, `some (count, ttl)` when
present (`ttl` is an `Int` because redis `TTL` can return `-1`/`-2`).
Store availability is modelled by `hasClient` (a client is configured) and
`opsFail` (some store operation raises). -/

/-- Return shape of `is_rate_limited`; `reset_time` (a wall-clock datetime)
is not modelled; the `error` message field is modelled by `errorMsg`. -/
structure RateLimitResult where
  allowed : Bool
  limit : Option Nat
  window : Option Nat
  current : Option Nat
  remaining : Option Int
  retry_after : Option Int
  errorMsg : Option String
deriving DecidableEq, Repr

/-- Method `RateLimitService.is_rate_limited`
(`src/services/rate_limit_service.py:55-148`).  `cfg` is
`self.rate_limits.get(limit_type)`; `counter` is the current value and TTL
of the computed `rate_key`.  Returns the result dict and the new state of
the key.  Faithful points: no client ⇒ allow with all-null fields; any
store exception ⇒ allow with an error message; unknown limit type ⇒ allow
with an error message; at the limit ⇒ not allowed, `retry_after` is the
key's TTL and the counter is untouched; otherwise `INCR` then
`EXPIRE window` (the expiry is re-set on every increment), with
`remaining = max(0, requests - new_count)`. -/
def is_rate_limited (hasClient opsFail : Bool) (cfg : Option (Nat × Nat))
    (counter : Option (Nat × Int)) :
    RateLimitResult × Option (Nat × Int) :=
  if !hasClient then
    ({ allowed := true, limit := none, window := none, current := none,
       remaining := none, retry_after := none, errorMsg := none }, counter)
  else if opsFail then
    ({ allowed := true, limit := none, window := none, current := none,
       remaining := none, retry_after := none,
       errorMsg := some "Rate limiting error" }, counter)
  else
    match cfg with
    | none =>
      ({ allowed := true, limit := none, window := none, current := none,
         remaining := none, retry_after := none,
         errorMsg := some "Unknown rate limit type" }, counter)
    | some (requests, window) =>
      let current_count : Nat := match counter with
        | some p => p.1
        | none => 0
      if requests ≤ current_count then
        let ttl : Int := match counter with
          | some p => p.2
          | none => -2
        ({ allowed := false, limit := some requests, window := some window,
           current := some current_count, remaining := some 0,
           retry_after := some ttl,
           errorMsg := some "Rate limit exceeded" }, counter)
      else
        let new_count := current_count + 1
        ({ allowed := true, limit := some requests, window := some window,
           current := some new_count,
           remaining := some (max 0 ((requests : Int) - (new_count : Int))),
           retry_after := none, errorMsg := none },
         some (new_count, (window : Int)))

/-! ### Suspicious-activity detector -/

/-- Thresholds `self.suspicious_thresholds` (`src/services/rate_limit_service.py:49-53`). -/
structure SuspiciousThresholds where
  multiple_ips_same_email : Nat
  high_frequency_submissions : Nat
  failed_attempts_limit : Nat
deriving DecidableEq, Repr

/-- The ephemeral-store keys `check_suspicious_activity` reads and writes:
the per-email IP set (`email_ips:{email}`, kept duplicate-free by `SADD`),
the per-IP/action frequency counter (`ip_frequency:{ip}:{action}`), the
failed-auth counter (`auth_failures:{ip}`) and the malicious-IP marker
(`malicious_ip:{ip}`).  The day-bucketed activity log (fire-and-forget
`LPUSH`) is not modelled. -/
structure AbuseStore where
  emailIPs : String → List String
  ipFreq : String → String → Nat
  authFailures : String → Nat
  maliciousIP : String → Bool

/-- Return shape of `check_suspicious_activity`.  The no-client and
exception branches return dicts without `indicators`/`score` keys, hence
the `Option`s. -/
structure SuspiciousResult where
  suspicious : Bool
  indicators : Option (List String)
  blocked : Bool
  score : Option Nat
  errorMsg : Option String

/-- Method `RateLimitService.check_suspicious_activity`
(`src/services/rate_limit_service.py:150-242`).  Faithful points:

  * no client ⇒ `{suspicious: False, blocked: False}`; any store
    exception ⇒ `{suspicious: False, error, blocked: False}`;
  * the multiple-IPs heuristic tests the set **before** adding the
    current IP; flagged at `len ≥ T1`, and `should_block` additionally at
    `len ≥ T1 * 2` (nested inside the flagged branch, lines 179-182);
  * the frequency counter is incremented first and flags+blocks at
    `new_count ≥ T2`;
  * the failed-auth counter only runs when `action_type == 'auth'` and
    flags+blocks at `new_count ≥ T3`;
  * a malicious-IP marker flags+blocks;
  * `suspicious = indicators ≠ []`, `score = min(100, 25·|indicators|)`. -/
def check_suspicious_activity (hasClient opsFail : Bool)
    (th : SuspiciousThresholds) (st : AbuseStore)
    (ip_address : String) (email : Option String) (action_type : String) :
    SuspiciousResult × AbuseStore :=
  if !hasClient then
    ({ suspicious := false, indicators := none, blocked := false,
       score := none, errorMsg := none }, st)
  else if opsFail then
    ({ suspicious := false, indicators := none, blocked := false,
       score := none, errorMsg := some "store error" }, st)
  else
    let emailPart :
        List String × Bool × AbuseStore :=
      match email with
      | none => ([], false, st)
      | some e =>
        let existing_ips := st.emailIPs e
        let flagged := th.multiple_ips_same_email ≤ existing_ips.length
        let ind := if flagged then ["Multiple IPs using email: " ++ e] else []
        let blk := flagged ∧ th.multiple_ips_same_email * 2 ≤ existing_ips.length
        let st' := { st with emailIPs := fun k =>
          if k = e then (st.emailIPs e).insert ip_address else st.emailIPs k }
        (ind, blk, st')
    let st1 := emailPart.2.2
    let freq_count := st1.ipFreq ip_address action_type + 1
    let st2 := { st1 with ipFreq := fun i a =>
      if i = ip_address ∧ a = action_type then freq_count else st1.ipFreq i a }
    let freqFlag := th.high_frequency_submissions ≤ freq_count
    let freqInd :=
      if freqFlag then ["High frequency submissions from IP: " ++ ip_address] else []
    let authPart : List String × Bool × AbuseStore :=
      if action_type = "auth" then
        let fail_count := st2.authFailures ip_address + 1
        let st3 := { st2 with authFailures := fun i =>
          if i = ip_address then fail_count else st2.authFailures i }
        let authFlag := th.failed_attempts_limit ≤ fail_count
        ((if authFlag then ["Multiple failed auth attempts from IP: " ++ ip_address]
          else []),
         authFlag, st3)
      else ([], false, st2)
    let malInd :=
      if st.maliciousIP ip_address then ["IP flagged as malicious"] else []
    let indicators :=
      emailPart.1 ++ freqInd ++ authPart.1 ++ malInd
    let should_block :=
      emailPart.2.1 ∨ freqFlag ∨ authPart.2.1 ∨ st.maliciousIP ip_address
    ({ suspicious := decide (0 < indicators.length)
       indicators := some indicators
       blocked := decide should_block
       score := some (min 100 (indicators.length * 25))
       errorMsg := none }, authPart.2.2)

/-! ### Email verification engine (`src/services/verification_service.py`) -/

/-- Enum `VerificationStatus` from `src/models/verification.py`. -/
inductive VerificationStatus where
  | valid | invalid | risky | unknown
deriving DecidableEq, Repr

/-- The verification result dict built by `verify_email`.  The field
`is_valid_addr` models the `is_valid_syntax` flag. -/
structure VerificationResult where
  email : String
  status : VerificationStatus
  is_valid_addr : Bool
  has_mx_record : Bool
  is_disposable : Bool
  is_webmail : Bool
  domain : String
  errors : List String
deriving DecidableEq, Repr

/-- Set `self.disposable_domains` (`src/services/verification_service.py:22-30`). -/
def disposable_domains : List String :=
  ["10minutemail.com", "20minutemail.com", "guerrillamail.com",
   "mailinator.com", "yopmail.com", "tempmail.org", "tempmail.com",
   "throwaway.email", "maildrop.cc", "fakemail.io", "mailnull.com",
   "incognitomail.com", "spambox.info", "temp-mail.org", "maildu.de",
   "nowmymail.com", "mailme.ir", "mailnesia.com", "trashmail.com",
   "mailcatch.com", "zebins.com", "yogamaven.com", "mailinator2.com",
   "deadaddress.com", "reallymymail.com", "mailsac.com", "temp-mail.io"]

/-- Set `self.webmail_domains` (`src/services/verification_service.py:33-36`). -/
def webmail_domains : List String :=
  ["gmail.com", "yahoo.com", "outlook.com", "hotmail.com", "aol.com",
   "icloud.com", "protonmail.com", "tutanota.com", "zoho.com", "mail.com"]

/-- Python `str.endswith`, on the character sequences. -/
def pyEndsWith (s suffixStr : String) : Bool :=
  suffixStr.data.isSuffixOf s.data

/-- Python `str.lower`, on the character sequences. -/
def pyToLower (s : String) : String :=
  ⟨s.data.map Char.toLower⟩

/-- Predicate `_is_disposable_email` (`src/services/verification_service.py:209-222`):
lowercase, then exact match against the set or suffix match against
`"." + disposable_domain`. -/
def is_disposable_email (domain : String) : Bool :=
  let d := pyToLower domain
  disposable_domains.contains d
    || disposable_domains.any (fun dd => pyEndsWith d ("." ++ dd))

/-- Predicate `_is_webmail_email` (`src/services/verification_service.py:224-237`). -/
def is_webmail_email (domain : String) : Bool :=
  let d := pyToLower domain
  webmail_domains.contains d
    || webmail_domains.any (fun wd => pyEndsWith d ("." ++ wd))

/-- Function `_determine_status` (`src/services/verification_service.py:239-252`),
a pure function of the three flags (the webmail flag is not consulted).
The branch order in the source is: invalid syntax ⇒ INVALID; disposable ⇒
RISKY; no MX record ⇒ INVALID; else VALID. -/
def determine_status (is_valid_addr is_disposable has_mx_record : Bool) :
    VerificationStatus :=
  if !is_valid_addr then .invalid
  else if is_disposable then .risky
  else if !has_mx_record then .invalid
  else .valid

/-- Observable behaviour of the external collaborators for one
`verify_email` call: `parse` is the outcome of `validate_email`
(`some` of the lowercased domain on success, `none` on
`EmailNotValidError`); `mx` is whether `dns.resolver.resolve(domain,'MX')`
succeeded (NXDOMAIN, no-answer, timeout and any other resolver error all
yield `false`, lines 196-207); `raises` is `some msg` when an unexpected
exception escapes into the outer `except` of `verify_email`
(lines 104-116). -/
structure VerifyEnv where
  parse : Option String
  mx : Bool
  raises : Option String
deriving DecidableEq, Repr

/-- The all-false UNKNOWN result dict returned by the outer `except` of
`verify_email` (`src/services/verification_service.py:106-116`). -/
def unknownResult (email : String) (msg : String) : VerificationResult :=
  { email := email, status := .unknown, is_valid_addr := false,
    has_mx_record := false, is_disposable := false, is_webmail := false,
    domain := "", errors := [msg] }

/-- Method `verify_email` (`src/services/verification_service.py:38-116`).
`cached` is the outcome of the cache lookup (`none` when there is no
redis client, the key is absent, or the lookup failed — `_get_cached_result`
catches its own exceptions and returns `None`).  Faithful points: the
cache is consulted only when not `force_verify`; syntax failure
short-circuits to an INVALID result (no disposable/webmail/MX step runs);
otherwise the three flags are computed from the extracted lowercased
domain and the status comes from `determine_status`; any unexpected
exception yields the UNKNOWN dict. -/
def verify_email (email : String) (env : VerifyEnv)
    (cached : Option VerificationResult) (force_verify : Bool) :
    VerificationResult :=
  match (if force_verify then none else cached) with
  | some r => r
  | none =>
    match env.raises with
    | some msg => unknownResult email msg
    | none =>
      match env.parse with
      | none =>
        { email := email, status := .invalid, is_valid_addr := false,
          has_mx_record := false, is_disposable := false,
          is_webmail := false, domain := "",
          errors := ["The email address is not valid"] }
      | some domain =>
        let disp := is_disposable_email domain
        let web := is_webmail_email domain
        { email := email
          status := determine_status true disp env.mx
          is_valid_addr := true
          has_mx_record := env.mx
          is_disposable := disp
          is_webmail := web
          domain := domain
          errors := [] }

/-- One element of the `verify_bulk_emails` batch: the address, its
collaborator behaviour, and — for the `isinstance(result, Exception)`
branch of the gather loop — an exception escaping the task itself
(`gatherExn`).  (`verify_email` catches its own exceptions, so
`gatherExn` covers the residual ways a task can yield an exception.) -/
structure BulkEntry where
  email : String
  env : VerifyEnv
  cached : Option VerificationResult
  gatherExn : Option String
deriving DecidableEq, Repr

/-- Common projection of the two dict shapes appended to `results` by the
gather loop of `verify_bulk_emails` (a full result dict, or the
three-key `{email, status, error}` dict of the exception branch). -/
structure BulkItemOut where
  email : String
  status : VerificationStatus
  errorMsg : Option String
deriving DecidableEq, Repr

/-- Aggregate return of `verify_bulk_emails`
(`src/services/verification_service.py:162-169`). -/
structure BulkSummary where
  total : Nat
  valid : Nat
  invalid : Nat
  risky : Nat
  unknown : Nat
  results : List BulkItemOut
deriving DecidableEq, Repr

/-- What the gather loop appends for one entry: the exception branch
yields an UNKNOWN item with the error message; otherwise the task's
result dict. -/
def bulkItemOut (force_verify : Bool) (it : BulkEntry) : BulkItemOut :=
  match it.gatherExn with
  | some msg => { email := it.email, status := .unknown, errorMsg := some msg }
  | none =>
    let r := verify_email it.email it.env it.cached force_verify
    { email := r.email, status := r.status, errorMsg := none }

/-- Which of the four counters one entry bumps
(`src/services/verification_service.py:141-160`): exception ⇒ unknown;
else by status, with every status other than VALID/INVALID/RISKY counted
as unknown. -/
def bulkCounterOf (force_verify : Bool) (it : BulkEntry) : VerificationStatus :=
  match it.gatherExn with
  | some _ => .unknown
  | none =>
    match (verify_email it.email it.env it.cached force_verify).status with
    | .valid => .valid
    | .invalid => .invalid
    | .risky => .risky
    | .unknown => .unknown

/-- One iteration of the gather-processing loop of `verify_bulk_emails`
(`src/services/verification_service.py:141-160`): append the item's
result and bump exactly the counter its status selects. -/
def bulkStep (force_verify : Bool) (acc : BulkSummary) (it : BulkEntry) :
    BulkSummary :=
  { acc with
    results := acc.results ++ [bulkItemOut force_verify it]
    valid := acc.valid +
      (if bulkCounterOf force_verify it = .valid then 1 else 0)
    invalid := acc.invalid +
      (if bulkCounterOf force_verify it = .invalid then 1 else 0)
    risky := acc.risky +
      (if bulkCounterOf force_verify it = .risky then 1 else 0)
    unknown := acc.unknown +
      (if bulkCounterOf force_verify it = .unknown then 1 else 0) }

/-- Method `verify_bulk_emails` (`src/services/verification_service.py:118-169`):
fan out `verify_email` over the entries (gather keeps one outcome per
entry, in order), then fold over the outcomes accumulating the results
list and the four status counters; `total = len(emails)`. -/
def verify_bulk_emails (entries : List BulkEntry) (force_verify : Bool) :
    BulkSummary :=
  let folded := entries.foldl (bulkStep force_verify)
    { total := 0, valid := 0, invalid := 0, risky := 0, unknown := 0,
      results := [] }
  { folded with total := entries.length }

/-! ### Provider selection (`src/services/email_service.py`) -/

/-- Enum `EmailProvider`, a str enum (`src/services/email_service.py:15-18`);
provider A is Gmail, provider B is Resend. -/
inductive EmailProvider where
  | gmail | resend | hybrid
deriving DecidableEq, Repr

/-- Enum `EmailType`, a str enum (`src/services/email_service.py:20-23`). -/
inductive EmailType where
  | transactional | bulk | autoresponse
deriving DecidableEq, Repr

/-- Method `EmailService._choose_provider` (`src/services/email_service.py:53-68`).
`mode` is the `EMAIL_SERVICE` environment string (a str-enum compares
equal to its value), `gmailAvailable` is `self.gmail_service is not None`
(Gmail initialized).  An unrecognized mode raises `ValueError`. -/
def choose_provider (mode : String) (gmailAvailable : Bool)
    (email_type : EmailType) (recipient_count : Nat) :
    Except String EmailProvider :=
  if mode = "gmail" then .ok .gmail
  else if mode = "resend" then .ok .resend
  else if mode = "hybrid" then
    if email_type = .transactional ∨ email_type = .autoresponse then
      .ok (if gmailAvailable then .gmail else .resend)
    else if email_type = .bulk ∨ 10 < recipient_count then
      .ok .resend
    else
      .ok (if gmailAvailable then .gmail else .resend)
  else .error ("Invalid email service configuration: " ++ mode)

/-! ### Derived notions used by the theorems -/

/-- How much one processed row adds to `sent_count + error_count`:
nothing for a row without an email value and nothing for a render
failure; exactly one otherwise. -/
def rowDelta (r : Row) : Nat :=
  match rowEmail r with
  | none => 0
  | some _ =>
    match r.outcome with
    | .renderFail _ => 0
    | _ => 1

/-- Total `rowDelta` of the rows still pending in all active workers. -/
def pendingDelta (s : Sys) : Nat :=
  (s.workers.map (fun w => (w.map rowDelta).sum)).sum

/-- The count invariant of the spec: `sent_count + error_count`, plus what
the pending rows can still add, stays within `total_emails`. -/
def countInv (s : Sys) : Prop :=
  s.campaign.sent_count + s.campaign.error_count + pendingDelta s ≤
    s.campaign.total_emails

/-- The derived-rate invariant of the spec: whenever `total_emails > 0`,
`delivery_rate = sent_count / total_emails * 100`. -/
def rateInv (c : Campaign) : Prop :=
  0 < c.total_emails →
    c.delivery_rate = (c.sent_count : ℚ) / (c.total_emails : ℚ) * 100

/-- A valid recipient row whose send succeeds. -/
def rowOk : Row := ⟨[("email", "a@b.c")], true, .sendSuccess "msg-1"⟩

/-- A valid recipient row whose `data` has no `email` value. -/
def rowNoEmail : Row := ⟨[("name", "x")], true, .sendSuccess "msg-2"⟩

/-- A valid recipient row whose template render fails. -/
def rowRenderFail : Row :=
  ⟨[("email", "a@b.c")], true, .renderFail "Template syntax error"⟩

/-- Trace states for the pause/resume interleaving: the campaign is
created with one valid recipient (`S0`), paused (`S1`), resumed before
the worker's next status read — which launches a second worker over all
valid rows (`S2`) — and then each of the two workers processes the
recipient (`S3`, `S4`). -/
def S0 : Sys := initSys [rowOk]

def S1 : Sys := { S0 with campaign := { S0.campaign with status := .paused } }

def S2 : Sys := { S1 with
  campaign := { S1.campaign with status := .sending }
  workers := S1.workers ++ [S1.rows.filter (fun r => r.valid)] }

def S3 : Sys := { S2 with
  campaign := (processRow S2.campaign S2.logs rowOk).1
  logs := (processRow S2.campaign S2.logs rowOk).2
  workers := S2.workers.set 0 [] }

def S4 : Sys := { S3 with
  campaign := (processRow S3.campaign S3.logs rowOk).1
  logs := (processRow S3.campaign S3.logs rowOk).2
  workers := S3.workers.set 1 [] }

/-- One ordinary worker iteration from `S0` (no pause/resume involved). -/
def SP : Sys := { S0 with
  campaign := (processRow S0.campaign S0.logs rowOk).1
  logs := (processRow S0.campaign S0.logs rowOk).2
  workers := S0.workers.set 0 [] }

/-- An empty ephemeral store for the abuse detector. -/
def emptyAbuseStore : AbuseStore :=
  ⟨fun _ => [], fun _ _ => 0, fun _ => 0, fun _ => false⟩

/-- Modelled from the claim's wording (C5): status priority "INVALID if
the syntax is invalid or the domain has no MX record; otherwise RISKY if
the domain is disposable; otherwise VALID" — for comparison with the
source's `determine_status`. -/
def claimStatusPriority (is_valid_addr has_mx_record is_disposable : Bool) :
    VerificationStatus :=
  if !is_valid_addr || !has_mx_record then .invalid
  else if is_disposable then .risky
  else .valid

/-! ## Theorems -/

/-- C8: provider selection is a pure function of the configured mode, the
email type and the recipient count: mode `gmail` (provider A) always
selects Gmail and mode `resend` (provider B) always selects Resend; in
`hybrid` mode, TRANSACTIONAL and AUTORESPONSE select Gmail when it
initialized else Resend, BULK type or `recipient_count > 10` selects
Resend, and every other case selects Gmail when it initialized else
Resend. -/
theorem claim_C8_provider_selection (gmailAvailable : Bool)
    (t : EmailType) (n : Nat) :
    choose_provider "gmail" gmailAvailable t n = .ok .gmail ∧
    choose_provider "resend" gmailAvailable t n = .ok .resend ∧
    choose_provider "hybrid" gmailAvailable t n = .ok
      (if t = .transactional ∨ t = .autoresponse then
        (if gmailAvailable then .gmail else .resend)
       else if t = .bulk ∨ 10 < n then .resend
       else (if gmailAvailable then .gmail else .resend)) := by
  refine ⟨rfl, rfl, ?_⟩
  cases t <;> rfl

/-- C5 counterexample: a syntactically valid address at a disposable
domain with **no** MX record.  The claim's priority ("INVALID if ... no
MX record; otherwise RISKY if disposable") requires INVALID here, but
`_determine_status` tests disposability before the MX flag and returns
RISKY. -/
theorem claim_C5_counterexample :
    (verify_email "user@mailinator.com" ⟨some "mailinator.com", false, none⟩
        none false).status = VerificationStatus.risky ∧
    (verify_email "user@mailinator.com" ⟨some "mailinator.com", false, none⟩
        none false).has_mx_record = false ∧
    (verify_email "user@mailinator.com" ⟨some "mailinator.com", false, none⟩
        none false).is_disposable = true ∧
    claimStatusPriority true false true = VerificationStatus.invalid ∧
    VerificationStatus.risky ≠ VerificationStatus.invalid :=
  ⟨rfl, rfl, rfl, rfl, by decide⟩

/-- C5 amended: on a cache miss without an unexpected exception,
`verify_email` assigns INVALID if the syntax is invalid; otherwise RISKY
if the domain is disposable (even when the domain has no MX record);
otherwise INVALID if the domain has no MX record; otherwise VALID — and
the webmail flag is never consulted (the status formula below does not
mention it). -/
theorem claim_C5_amended_status_priority (email : String) (env : VerifyEnv)
    (h : env.raises = none) :
    (verify_email email env none false).status =
      (match env.parse with
       | none => VerificationStatus.invalid
       | some d =>
         if is_disposable_email d then VerificationStatus.risky
         else if env.mx then VerificationStatus.valid
         else VerificationStatus.invalid) := by
  obtain ⟨parse, mx, raises⟩ := env
  subst h
  cases parse with
  | none => rfl
  | some d =>
    show determine_status true (is_disposable_email d) mx = _
    unfold determine_status
    cases hd : is_disposable_email d <;> cases mx <;> simp [hd]

/-- Witness for C5 amended at a concrete disposable domain carrying a
resolvable MX record. -/
theorem claim_C5_amended_status_priority_witness :
    (verify_email "user@mailinator.com" ⟨some "mailinator.com", true, none⟩
        none false).status = VerificationStatus.risky := by
  have h := claim_C5_amended_status_priority "user@mailinator.com"
    ⟨some "mailinator.com", true, none⟩ rfl
  rw [h]
  decide

/-- C2, evaluated at the failing input: a campaign with one valid
recipient is paused before the worker's first iteration.  The worker
observes the PAUSED status and breaks — processing no row and writing no
log — yet the fall-through after the loop
(`src/routes/campaigns.py:505-507`) still sets the status to COMPLETED
instead of leaving it PAUSED, so the "remaining rows stay unprocessed for
a future resume" can never be resumed (`resume_campaign` requires
PAUSED). -/
theorem claim_C2_pause_overwritten_by_completed :
    stopStatus CampaignStatus.paused = true ∧
    (send_campaign_emails
        { create_campaign [rowOk] with status := CampaignStatus.paused }
        [] [rowOk]).1.status = CampaignStatus.completed ∧
    (send_campaign_emails
        { create_campaign [rowOk] with status := CampaignStatus.paused }
        [] [rowOk]).1.sent_count +
      (send_campaign_emails
        { create_campaign [rowOk] with status := CampaignStatus.paused }
        [] [rowOk]).1.error_count = 0 ∧
    (send_campaign_emails
        { create_campaign [rowOk] with status := CampaignStatus.paused }
        [] [rowOk]).2 = [] :=
  ⟨rfl, rfl, rfl, rfl⟩

/-- C3 counterexample: one valid row whose template render fails,
followed by one valid row that sends.  The worker writes a FAILED
EmailLog for the first row and continues, but `error_count` stays 0 —
the claim's "error_count is incremented" is false on the code
(`src/routes/campaigns.py:476-478` has no `error_count += 1`). -/
theorem claim_C3_counterexample :
    (send_campaign_emails (create_campaign [rowRenderFail, rowOk]) []
        [rowRenderFail, rowOk]).1.error_count = 0 ∧
    (send_campaign_emails (create_campaign [rowRenderFail, rowOk]) []
        [rowRenderFail, rowOk]).1.sent_count = 1 ∧
    (send_campaign_emails (create_campaign [rowRenderFail, rowOk]) []
        [rowRenderFail, rowOk]).2 =
      [⟨"a@b.c", .failed, some "Template syntax error", none⟩,
       ⟨"a@b.c", .sent, none, some "msg-1"⟩] :=
  ⟨rfl, rfl, rfl⟩

/-- C3 amended: for every valid recipient row whose template rendering
fails, a FAILED EmailLog is written and processing continues with the
next row (the run is not aborted) — but the campaign record, including
`error_count`, is left unchanged. -/
theorem claim_C3_render_failure_logs_and_continues (c : Campaign)
    (logs : List EmailLog) (rest : List Row)
    (data : List (String × String)) (err e : String)
    (hstop : stopStatus c.status = false)
    (hemail : rowEmail ⟨data, true, .renderFail err⟩ = some e) :
    workerLoop c logs (⟨data, true, .renderFail err⟩ :: rest) =
      workerLoop c (logs ++ [⟨e, .failed, some err, none⟩]) rest := by
  show (if stopStatus c.status then _ else _) = _
  rw [hstop]
  show workerLoop (processRow c logs ⟨data, true, .renderFail err⟩).1
    (processRow c logs ⟨data, true, .renderFail err⟩).2 rest = _
  unfold processRow
  rw [hemail]

/-- Witness for C3 amended: a render failure writes the FAILED log and
the loop proceeds to the remaining row with the campaign untouched. -/
theorem claim_C3_render_failure_logs_and_continues_witness :
    workerLoop ⟨.sending, 2, 0, 0, 0⟩ [] [rowRenderFail, rowOk] =
      workerLoop ⟨.sending, 2, 0, 0, 0⟩
        [⟨"a@b.c", .failed, some "Template syntax error", none⟩] [rowOk] :=
  claim_C3_render_failure_logs_and_continues ⟨.sending, 2, 0, 0, 0⟩ []
    [rowOk] [("email", "a@b.c")] "Template syntax error" "a@b.c" rfl rfl

/-- C10: a valid recipient row whose data contains no `email` value is
skipped silently — the iteration leaves the campaign record and the log
list untouched — yet such rows are counted in `total_emails` at campaign
creation, so a campaign reaches COMPLETED with
`sent_count + error_count` strictly below `total_emails`
(concretely: one valid row without an email, `total_emails = 1`,
final status COMPLETED, zero logs, zero counts). -/
theorem claim_C10_missing_email_skipped_silently (c : Campaign)
    (logs : List EmailLog) (r : Row) (rest : List Row)
    (_hvalid : r.valid = true) (hemail : rowEmail r = none)
    (hstop : stopStatus c.status = false) :
    workerLoop c logs (r :: rest) = workerLoop c logs rest ∧
    (create_campaign [rowNoEmail]).total_emails = 1 ∧
    (send_campaign_emails (create_campaign [rowNoEmail]) []
        [rowNoEmail]).1.status = CampaignStatus.completed ∧
    (send_campaign_emails (create_campaign [rowNoEmail]) []
        [rowNoEmail]).1.sent_count +
      (send_campaign_emails (create_campaign [rowNoEmail]) []
        [rowNoEmail]).1.error_count = 0 ∧
    (send_campaign_emails (create_campaign [rowNoEmail]) []
        [rowNoEmail]).2 = [] := by
  refine ⟨?_, rfl, rfl, rfl, rfl⟩
  show (if stopStatus c.status then _ else _) = _
  rw [hstop]
  show workerLoop (processRow c logs r).1 (processRow c logs r).2 rest = _
  unfold processRow
  rw [hemail]

/-- Witness for C10: the skip equation at the concrete no-email row. -/
theorem claim_C10_missing_email_skipped_silently_witness :
    workerLoop ⟨.sending, 1, 0, 0, 0⟩ [] [rowNoEmail] =
      workerLoop ⟨.sending, 1, 0, 0, 0⟩ [] [] :=
  (claim_C10_missing_email_skipped_silently ⟨.sending, 1, 0, 0, 0⟩ []
    rowNoEmail [] rfl rfl rfl).1

/-- C7: whenever the ephemeral store is unavailable — no client
configured, or any store operation raises — `is_rate_limited` returns
`allowed = true` and `check_suspicious_activity` returns
`suspicious = false` and `blocked = false`: both fail open. -/
theorem claim_C7_fail_open (hasClient opsFail : Bool)
    (cfg : Option (Nat × Nat)) (counter : Option (Nat × Int))
    (th : SuspiciousThresholds) (st : AbuseStore)
    (ip : String) (email : Option String) (action_type : String)
    (h : hasClient = false ∨ opsFail = true) :
    (is_rate_limited hasClient opsFail cfg counter).1.allowed = true ∧
    (check_suspicious_activity hasClient opsFail th st ip email
        action_type).1.suspicious = false ∧
    (check_suspicious_activity hasClient opsFail th st ip email
        action_type).1.blocked = false := by
  rcases h with h | h
  · subst h
    cases opsFail <;> simp [is_rate_limited, check_suspicious_activity]
  · subst h
    cases hasClient <;> simp [is_rate_limited, check_suspicious_activity]

/-- Witness for C7 at a concrete store-down configuration. -/
theorem claim_C7_fail_open_witness :
    (is_rate_limited false false (some (5, 60)) none).1.allowed = true ∧
    (check_suspicious_activity false false ⟨3, 20, 10⟩ emptyAbuseStore
        "203.0.113.9" none "form_submission").1.suspicious = false ∧
    (check_suspicious_activity false false ⟨3, 20, 10⟩ emptyAbuseStore
        "203.0.113.9" none "form_submission").1.blocked = false :=
  claim_C7_fail_open false false (some (5, 60)) none ⟨3, 20, 10⟩
    emptyAbuseStore "203.0.113.9" none "form_submission" (Or.inl rfl)

/-- C6: with the store up and limits `{max_requests = N, window = W}`
configured for the type: if the counter has reached `N`, the call returns
not-allowed with `retry_after` equal to the key's remaining TTL (at most
`W`, given the store invariant that the TTL never exceeds the expiry it
was set with) and leaves the counter untouched; otherwise it increments
the counter — creating it with expiry `W` when absent — and returns
allowed with `remaining = N - new_count`. -/
theorem claim_C6_fixed_window (requests window count : Nat) (ttl : Int) :
    (requests ≤ count → ttl ≤ (window : Int) →
      (is_rate_limited true false (some (requests, window))
          (some (count, ttl))).1.allowed = false ∧
      (is_rate_limited true false (some (requests, window))
          (some (count, ttl))).1.retry_after = some ttl ∧
      ttl ≤ (window : Int) ∧
      (is_rate_limited true false (some (requests, window))
          (some (count, ttl))).2 = some (count, ttl)) ∧
    (count < requests →
      (is_rate_limited true false (some (requests, window))
          (some (count, ttl))).1.allowed = true ∧
      (is_rate_limited true false (some (requests, window))
          (some (count, ttl))).2 = some (count + 1, (window : Int)) ∧
      (is_rate_limited true false (some (requests, window))
          (some (count, ttl))).1.remaining =
        some ((requests : Int) - ((count : Int) + 1))) ∧
    (0 < requests →
      (is_rate_limited true false (some (requests, window)) none).1.allowed
          = true ∧
      (is_rate_limited true false (some (requests, window)) none).2 =
        some (1, (window : Int)) ∧
      (is_rate_limited true false (some (requests, window)) none).1.remaining
          = some ((requests : Int) - 1)) := by
  refine ⟨fun hle httl => ?_, fun hlt => ?_, fun hpos => ?_⟩
  · refine ⟨?_, ?_, httl, ?_⟩ <;> simp [is_rate_limited, hle]
  · have hnot : ¬ requests ≤ count := Nat.not_le.mpr hlt
    have hmax : (0 : Int) ≤ (requests : Int) - ((count : Int) + 1) := by
      omega
    refine ⟨?_, ?_, ?_⟩ <;>
      simp [is_rate_limited, hnot, max_eq_right hmax]
  · have hnot : ¬ requests ≤ 0 := Nat.not_le.mpr hpos
    have hmax : (0 : Int) ≤ (requests : Int) - ((0 : Int) + 1) := by
      omega
    refine ⟨?_, ?_, ?_⟩ <;>
      (simp [is_rate_limited, hnot, max_eq_right hmax]; try omega)

/-- Witness for C6 with `N = 5, W = 60`: a full counter rejects with
`retry_after` 30 and stays at 5; a counter at 2 increments to 3 with
`remaining = 2`; a fresh key is created at 1 with expiry 60 and
`remaining = 4`. -/
theorem claim_C6_fixed_window_witness :
    ((is_rate_limited true false (some (5, 60)) (some (5, 30))).1.allowed
        = false ∧
      (is_rate_limited true false (some (5, 60))
          (some (5, 30))).1.retry_after = some 30 ∧
      (30 : Int) ≤ (60 : Nat) ∧
      (is_rate_limited true false (some (5, 60)) (some (5, 30))).2 =
        some (5, 30)) ∧
    ((is_rate_limited true false (some (5, 60)) (some (2, 30))).1.allowed
        = true ∧
      (is_rate_limited true false (some (5, 60)) (some (2, 30))).2 =
        some (3, ((60 : Nat) : Int)) ∧
      (is_rate_limited true false (some (5, 60))
          (some (2, 30))).1.remaining = some ((5 : Int) - ((2 : Int) + 1))) ∧
    ((is_rate_limited true false (some (5, 60)) none).1.allowed = true ∧
      (is_rate_limited true false (some (5, 60)) none).2 =
        some (1, ((60 : Nat) : Int)) ∧
      (is_rate_limited true false (some (5, 60)) none).1.remaining =
        some ((5 : Int) - 1)) :=
  ⟨(claim_C6_fixed_window 5 60 5 30).1 (by decide) (by decide),
   (claim_C6_fixed_window 5 60 2 30).2.1 (by decide),
   (claim_C6_fixed_window 5 60 0 0).2.2 (by decide)⟩

/-- C4: once an email address has been recorded (within the rolling
window, i.e. in the live `email_ips` set) as submitted from at least T1
distinct IP addresses, `check_suspicious_activity` flags it as
suspicious — and once recorded from at least `2 × T1` distinct IPs it
additionally returns `blocked = true`, whatever the other heuristics
contribute. -/
theorem claim_C4_multiple_ips_flagged (th : SuspiciousThresholds)
    (st : AbuseStore) (ip e action_type : String)
    (_hdistinct : (st.emailIPs e).Nodup)
    (h1 : th.multiple_ips_same_email ≤ (st.emailIPs e).length) :
    (check_suspicious_activity true false th st ip (some e)
        action_type).1.suspicious = true ∧
    (th.multiple_ips_same_email * 2 ≤ (st.emailIPs e).length →
      (check_suspicious_activity true false th st ip (some e)
          action_type).1.blocked = true) := by
  constructor
  · simp only [check_suspicious_activity, Bool.not_true, Bool.false_eq_true,
      if_false, if_pos h1]
    simp
  · intro h2
    simp only [check_suspicious_activity, Bool.not_true, Bool.false_eq_true,
      if_false, if_pos h1]
    simp only [SuspiciousResult.blocked, decide_eq_true_eq]
    exact Or.inl ⟨h1, h2⟩

/-- Witness for C4 with the default threshold T1 = 3 and an address
already recorded from six distinct IPs: flagged and blocked. -/
theorem claim_C4_multiple_ips_flagged_witness :
    (check_suspicious_activity true false ⟨3, 20, 10⟩
        { emptyAbuseStore with emailIPs := fun k =>
            if k = "victim@example.com" then
              ["10.0.0.1", "10.0.0.2", "10.0.0.3", "10.0.0.4",
               "10.0.0.5", "10.0.0.6"]
            else [] }
        "10.0.0.7" (some "victim@example.com")
        "form_submission").1.suspicious = true ∧
    (check_suspicious_activity true false ⟨3, 20, 10⟩
        { emptyAbuseStore with emailIPs := fun k =>
            if k = "victim@example.com" then
              ["10.0.0.1", "10.0.0.2", "10.0.0.3", "10.0.0.4",
               "10.0.0.5", "10.0.0.6"]
            else [] }
        "10.0.0.7" (some "victim@example.com")
        "form_submission").1.blocked = true := by
  have h := claim_C4_multiple_ips_flagged ⟨3, 20, 10⟩
    { emptyAbuseStore with emailIPs := fun k =>
        if k = "victim@example.com" then
          ["10.0.0.1", "10.0.0.2", "10.0.0.3", "10.0.0.4",
           "10.0.0.5", "10.0.0.6"]
        else [] }
    "10.0.0.7" "victim@example.com" "form_submission" (by decide)
    (by decide)
  exact ⟨h.1, h.2 (by decide)⟩

/-- Each batch item bumps exactly one of the four status counters. -/
theorem bulkCounter_one (force_verify : Bool) (it : BulkEntry) :
    (if bulkCounterOf force_verify it = .valid then 1 else 0) +
      (if bulkCounterOf force_verify it = .invalid then 1 else 0) +
      (if bulkCounterOf force_verify it = .risky then 1 else 0) +
      (if bulkCounterOf force_verify it = .unknown then 1 else 0) = 1 := by
  cases h : bulkCounterOf force_verify it <;> simp [h]

/-- Fold characterization of the gather loop: the results accumulate one
item per entry, in order, and the four counters together grow by exactly
one per entry. -/
theorem bulk_foldl_spec (force_verify : Bool) (entries : List BulkEntry)
    (acc : BulkSummary) :
    ((entries.foldl (bulkStep force_verify) acc).results =
      acc.results ++ entries.map (bulkItemOut force_verify)) ∧
    ((entries.foldl (bulkStep force_verify) acc).valid +
        (entries.foldl (bulkStep force_verify) acc).invalid +
        (entries.foldl (bulkStep force_verify) acc).risky +
        (entries.foldl (bulkStep force_verify) acc).unknown =
      acc.valid + acc.invalid + acc.risky + acc.unknown + entries.length) := by
  induction entries generalizing acc with
  | nil => simp
  | cons it rest ih =>
    simp only [List.foldl_cons, List.map_cons, List.length_cons]
    obtain ⟨h1, h2⟩ := ih (bulkStep force_verify acc it)
    refine ⟨?_, ?_⟩
    · rw [h1]
      simp [bulkStep]
    · rw [h2]
      have hone := bulkCounter_one force_verify it
      simp only [bulkStep]
      omega

/-- C9: `verify_bulk_emails` returns one result per input entry, in input
order (so a per-item exception yields an UNKNOWN result for that item and
never aborts the processing of the remaining items), with
`total = len(emails)`, and the four status counters partition the batch:
`valid + invalid + risky + unknown = total`. -/
theorem claim_C9_bulk_counts_partition (entries : List BulkEntry)
    (force_verify : Bool) :
    (verify_bulk_emails entries force_verify).total = entries.length ∧
    (verify_bulk_emails entries force_verify).results =
      entries.map (bulkItemOut force_verify) ∧
    (verify_bulk_emails entries force_verify).valid +
        (verify_bulk_emails entries force_verify).invalid +
        (verify_bulk_emails entries force_verify).risky +
        (verify_bulk_emails entries force_verify).unknown =
      (verify_bulk_emails entries force_verify).total ∧
    (∀ (e msg : String) (env : VerifyEnv) (cached : Option VerificationResult),
      (bulkItemOut force_verify ⟨e, env, cached, some msg⟩).status =
        VerificationStatus.unknown) := by
  obtain ⟨h1, h2⟩ := bulk_foldl_spec force_verify entries
    { total := 0, valid := 0, invalid := 0, risky := 0, unknown := 0,
      results := [] }
  refine ⟨rfl, ?_, ?_, fun e msg env cached => rfl⟩
  · simpa [verify_bulk_emails] using h1
  · simpa [verify_bulk_emails] using h2

/-! ### Invariant lemmas for the delivery worker -/

/-- Processing one row adds exactly `rowDelta` to
`sent_count + error_count`. -/
theorem processRow_counts (c : Campaign) (logs : List EmailLog) (r : Row) :
    (processRow c logs r).1.sent_count + (processRow c logs r).1.error_count
      = c.sent_count + c.error_count + rowDelta r := by
  cases h : rowEmail r with
  | none => simp [processRow, rowDelta, h]
  | some e =>
    cases ho : r.outcome <;>
      simp [processRow, rowDelta, h, ho, recomputeRate] <;> omega

/-- Processing one row never changes `total_emails`. -/
theorem processRow_total (c : Campaign) (logs : List EmailLog) (r : Row) :
    (processRow c logs r).1.total_emails = c.total_emails := by
  cases h : rowEmail r with
  | none => simp [processRow, h]
  | some e =>
    cases ho : r.outcome <;> simp [processRow, h, ho, recomputeRate]

/-- Processing one row never changes the campaign status. -/
theorem processRow_status (c : Campaign) (logs : List EmailLog) (r : Row) :
    (processRow c logs r).1.status = c.status := by
  cases h : rowEmail r with
  | none => simp [processRow, h]
  | some e =>
    cases ho : r.outcome <;> simp [processRow, h, ho, recomputeRate]

/-- Processing one row preserves the derived-rate identity. -/
theorem processRow_rateInv (c : Campaign) (logs : List EmailLog) (r : Row)
    (hc : rateInv c) : rateInv (processRow c logs r).1 := by
  intro ht
  rw [processRow_total c logs r] at ht
  cases h : rowEmail r with
  | none => simpa [processRow, h] using hc ht
  | some e =>
    cases ho : r.outcome with
    | renderFail err => simpa [processRow, h, ho] using hc ht
    | sendSuccess messageId => simp [processRow, h, ho, recomputeRate, ht]
    | sendError msg => simp [processRow, h, ho, recomputeRate, ht]
    | sendRaise msg => simp [processRow, h, ho, recomputeRate, ht]

/-- Bound: `rowDelta` is at most one. -/
theorem rowDelta_le_one (r : Row) : rowDelta r ≤ 1 := by
  cases h : rowEmail r with
  | none => simp [rowDelta, h]
  | some e => cases ho : r.outcome <;> simp [rowDelta, h, ho]

/-- A worker's pending delta is bounded by its number of rows. -/
theorem sum_rowDelta_le_length (w : List Row) :
    (w.map rowDelta).sum ≤ w.length := by
  induction w with
  | nil => simp
  | cons r tl ih =>
    have := rowDelta_le_one r
    simp only [List.map_cons, List.sum_cons, List.length_cons]
    omega

/-- Removing the head row from worker `i` removes exactly its
`rowDelta` from the total pending delta. -/
theorem sumDelta_set (l : List (List Row)) (i : Nat) (r : Row)
    (rest : List Row) (h : l.get? i = some (r :: rest)) :
    ((l.set i rest).map (fun w => (w.map rowDelta).sum)).sum + rowDelta r =
      (l.map (fun w => (w.map rowDelta).sum)).sum := by
  induction l generalizing i with
  | nil => simp at h
  | cons w tl ih =>
    cases i with
    | zero =>
      simp only [List.get?] at h
      obtain rfl : w = r :: rest := by injection h
      simp only [List.set, List.map_cons, List.sum_cons]
      omega
    | succ n =>
      simp only [List.get?] at h
      have := ih n h
      simp only [List.set, List.map_cons, List.sum_cons]
      omega

/-- Dropping a worker never increases the total pending delta. -/
theorem sumDelta_erase (l : List (List Row)) (i : Nat) :
    ((l.eraseIdx i).map (fun w => (w.map rowDelta).sum)).sum ≤
      (l.map (fun w => (w.map rowDelta).sum)).sum := by
  induction l generalizing i with
  | nil => simp
  | cons w tl ih =>
    cases i with
    | zero =>
      simp only [List.eraseIdx, List.map_cons, List.sum_cons]
      omega
    | succ n =>
      have := ih n
      simp only [List.eraseIdx, List.map_cons, List.sum_cons]
      omega

/-- The freshly created system satisfies the count invariant. -/
theorem initSys_countInv (rows : List Row) : countInv (initSys rows) := by
  unfold countInv initSys create_campaign pendingDelta
  by_cases h : 0 < (rows.filter (fun r => r.valid)).length <;>
    simp [h, sum_rowDelta_le_length]

/-- The freshly created system satisfies the rate identity. -/
theorem initSys_rateInv (rows : List Row) : rateInv (initSys rows).campaign := by
  intro ht
  simp [initSys, create_campaign]

/-- Every non-resume step preserves the count invariant. -/
theorem step0_countInv {s t : Sys} (h : Step0 s t) (hi : countInv s) :
    countInv t := by
  cases h with
  | process i r rest hw hs =>
    have hc := processRow_counts s.campaign s.logs r
    have htot := processRow_total s.campaign s.logs r
    have hset := sumDelta_set s.workers i r rest hw
    unfold countInv pendingDelta at hi ⊢
    dsimp only at hi ⊢
    omega
  | stopComplete i r rest hw hs =>
    have := sumDelta_erase s.workers i
    unfold countInv pendingDelta at hi ⊢
    dsimp only at hi ⊢
    omega
  | finishComplete i hw =>
    have := sumDelta_erase s.workers i
    unfold countInv pendingDelta at hi ⊢
    dsimp only at hi ⊢
    omega
  | pause hs =>
    unfold countInv pendingDelta at hi ⊢
    dsimp only at hi ⊢
    omega

/-- Every step — resume included — preserves the rate identity. -/
theorem step_rateInv {s t : Sys} (h : Step s t) (hi : rateInv s.campaign) :
    rateInv t.campaign := by
  cases h with
  | base h0 =>
    cases h0 with
    | process i r rest hw hs =>
      exact processRow_rateInv s.campaign s.logs r hi
    | stopComplete i r rest hw hs => intro ht; exact hi ht
    | finishComplete i hw => intro ht; exact hi ht
    | pause hs => intro ht; exact hi ht
  | resume hs => intro ht; exact hi ht

/-- Count invariant along every non-resume reachable state. -/
theorem reach0_countInv (rows : List Row) (s : Sys)
    (h : Relation.ReflTransGen Step0 (initSys rows) s) : countInv s := by
  induction h with
  | refl => exact initSys_countInv rows
  | tail _ hstep ih => exact step0_countInv hstep ih

/-- Rate identity along every reachable state. -/
theorem reach_rateInv (rows : List Row) (s : Sys)
    (h : Relation.ReflTransGen Step (initSys rows) s) :
    rateInv s.campaign := by
  induction h with
  | refl => exact initSys_rateInv rows
  | tail _ hstep ih => exact step_rateInv hstep ih

/-- C1 counterexample: `sent_count + error_count ≤ total_emails` does
**not** hold across every sequence of operations.  With one valid
recipient (`total_emails = 1`): the worker sends it
(`sent_count = 1`), the campaign is paused, then resumed — the resume
relaunches the worker over **all** valid rows without resetting the
counters (`src/routes/campaigns.py:301-325`), and once it also sends the
row, `sent_count = 2 > 1 = total_emails`.  (Here the first worker's
iteration is interleaved after the resume; the narrower interleaving
where the first worker observes the pause breaks the invariant the same
way, since a second full run still adds `total_emails` to the counters.) -/
theorem claim_C1_counterexample :
    ¬ (∀ s : Sys, Relation.ReflTransGen Step (initSys [rowOk]) s →
        s.campaign.sent_count + s.campaign.error_count ≤
          s.campaign.total_emails) := by
  intro h
  have h01 : Step S0 S1 := Step.base (Step0.pause S0 rfl)
  have h12 : Step S1 S2 := Step.resume S1 rfl
  have h23 : Step S2 S3 := Step.base (Step0.process S2 0 rowOk [] rfl rfl)
  have h34 : Step S3 S4 := Step.base (Step0.process S3 1 rowOk [] rfl rfl)
  have hreach : Relation.ReflTransGen Step S0 S4 :=
    .head h01 (.head h12 (.head h23 (.head h34 .refl)))
  have hle := h S4 hreach
  have h2 : S4.campaign.sent_count = 2 := rfl
  have h0 : S4.campaign.error_count = 0 := rfl
  have h1 : S4.campaign.total_emails = 1 := rfl
  omega

/-- C1 amended: at every commit point reachable by any sequence of
operations — creation, worker iterations, worker completion, pause,
resume — `delivery_rate = sent_count / total_emails * 100` holds whenever
`total_emails > 0`; and `sent_count + error_count ≤ total_emails` holds
at every commit point reachable **without a resume**.  (After a resume —
which re-runs the worker over all valid rows without resetting the
counters — the count bound can fail, as the counterexample shows.) -/
theorem claim_C1_amended_invariants (rows : List Row) (s : Sys) :
    (Relation.ReflTransGen Step (initSys rows) s →
      0 < s.campaign.total_emails →
      s.campaign.delivery_rate =
        (s.campaign.sent_count : ℚ) / (s.campaign.total_emails : ℚ) * 100) ∧
    (Relation.ReflTransGen Step0 (initSys rows) s →
      s.campaign.sent_count + s.campaign.error_count ≤
        s.campaign.total_emails) := by
  constructor
  · intro h ht
    exact reach_rateInv rows s h ht
  · intro h
    have hc := reach0_countInv rows s h
    unfold countInv at hc
    omega

/-- Witness for C1 amended: after the pause/resume/send interleaving
prefix reaching `S3` the rate identity holds, and after one ordinary
worker iteration (`SP`) the counters respect `total_emails`. -/
theorem claim_C1_amended_invariants_witness :
    S3.campaign.delivery_rate =
      (S3.campaign.sent_count : ℚ) / (S3.campaign.total_emails : ℚ) * 100 ∧
    SP.campaign.sent_count + SP.campaign.error_count ≤
      SP.campaign.total_emails :=
  ⟨(claim_C1_amended_invariants [rowOk] S3).1
      (.head (Step.base (Step0.pause S0 rfl))
        (.head (Step.resume S1 rfl)
          (.head (Step.base (Step0.process S2 0 rowOk [] rfl rfl)) .refl)))
      (by decide),
   (claim_C1_amended_invariants [rowOk] SP).2
      (.head (Step0.process S0 0 rowOk [] rfl rfl) .refl)⟩

end FormAutomate
